import Mathlib

/-!
Verification of the SRAI-Sentience integration pipeline
(`python/sentience_core/srai_integration.py`).

The Python module is embedded shallowly:
* floats become rationals (`ℚ`);
* the external collaborators (the Rust DSL executor, the Cortex memory
  store, the RefNet adapter) are abstract records of functions over an
  abstract store state `σ` and window type `ω`;
* Python exceptions become `Except String`;
* the standard-library primitives `hashlib.sha256`-digest and `np.sin`
  used by the embedder are abstract parameters `hashFn`/`sinQ` — every
  theorem about the embedder holds for all choices of them.
-/

namespace Sentience

/-- SRAI `TokenType` enumeration (PERCEPT, REFLECTION, ACTION, CONCEPT, SELF). -/
inductive TokenType where
  | PERCEPT
  | REFLECTION
  | ACTION
  | CONCEPT
  | SELF
deriving DecidableEq, Repr

/-- `TokenType.value`: the string value of the enum member, used when the
embedder builds the token string.  The concrete strings are opaque to the
pipeline; only their association with the enum matters. -/
def TokenType.value : TokenType → String
  | .PERCEPT => "percept"
  | .REFLECTION => "reflection"
  | .ACTION => "action"
  | .CONCEPT => "concept"
  | .SELF => "self"

/-- SRAI `EdgeType` enumeration. -/
inductive EdgeType where
  | ABOUT_SELF
  | CAUSES
  | SUPPORTS
  | CONTRADICTS
  | STRUCTURAL
  | TEMPORAL
  | SEMANTIC
deriving DecidableEq, Repr

/-- SRAI `SentienceToken`: `token_type`, structured content `ast`
(an ordered string-keyed mapping, modelled as a key/value list), and a
`token_id`. -/
structure SentienceToken where
  token_type : TokenType
  ast : List (String × String)
  token_id : String
deriving DecidableEq, Repr

/-- SRAI `Edge`: a typed, weighted relation between two token ids. -/
structure Edge where
  source_id : String
  target_id : String
  edge_type : EdgeType
  weight : ℚ
deriving DecidableEq, Repr

/-- SRAI `ReflectionMetrics` as constructed and consumed by the module. -/
structure ReflectionMetrics where
  valence : ℚ
  smd : ℚ
  quality : ℚ
  next_action : String
deriving DecidableEq, Repr

/-- `SentienceRefNetMetrics` dataclass. -/
structure SentienceRefNetMetrics where
  valence : ℚ
  smd : ℚ
  quality : ℚ
  next_action : String
  action_logits : List (String × ℚ)
deriving DecidableEq, Repr

/-- A raw token produced by the Rust core (`py_result.tokens()` entries):
a dict with keys `"type"`, `"fields"`, `"id"`. -/
structure RawToken where
  type : String
  fields : List (String × String)
  id : String
deriving DecidableEq, Repr

/-- A raw edge produced by the Rust core (`py_result.edges()` entries):
a dict with keys `"edge_type"`, `"source_id"`, `"target_id"`, `"weight"`. -/
structure RawEdge where
  edge_type : String
  source_id : String
  target_id : String
  weight : ℚ
deriving DecidableEq, Repr

/-- `PyExecutionResult` as consumed: `token_id()`, `embedding()`,
`tokens()`, `edges()`. -/
structure PyResult where
  token_id : Option String
  embedding : Option (List ℚ)
  tokens : List RawToken
  edges : List RawEdge
deriving DecidableEq, Repr

/-- `SentienceExecutionResult` dataclass (the committed-id list computed in
step 5 is not part of it, exactly as in the source). -/
structure SentienceExecutionResult where
  token_id : Option String
  embedding : Option (List ℚ)
  metrics : Option SentienceRefNetMetrics
  tokens : List RawToken
  edges : List RawEdge
  srai_tokens : List SentienceToken
  srai_edges : List Edge
deriving DecidableEq, Repr

/-! ### Thought-type constants

`THOUGHT_TYPE_PERCEPT`, … are opaque constants imported from the Rust
`sentience_core` extension; they are modelled as five distinct strings. -/

def THOUGHT_TYPE_PERCEPT : String := "Percept"

def THOUGHT_TYPE_REFLECTION : String := "Reflection"

def THOUGHT_TYPE_ACTION : String := "Action"

def THOUGHT_TYPE_CONCEPT : String := "Concept"

def THOUGHT_TYPE_SELF_MODEL : String := "SelfModel"

/-! ### Canonicalizer (`_convert_to_srai_tokens`, `_convert_to_srai_edges`) -/

/-- The `type_mapping` dict of `_convert_to_srai_tokens`, as an association
list (its keys are distinct, so `List.lookup` models `dict.get`). -/
def type_mapping : List (String × TokenType) :=
  [(THOUGHT_TYPE_PERCEPT, TokenType.PERCEPT),
   (THOUGHT_TYPE_REFLECTION, TokenType.REFLECTION),
   (THOUGHT_TYPE_ACTION, TokenType.ACTION),
   (THOUGHT_TYPE_CONCEPT, TokenType.CONCEPT),
   (THOUGHT_TYPE_SELF_MODEL, TokenType.SELF)]

/-- The per-token body of the `_convert_to_srai_tokens` loop:
`type_mapping.get(sentience_type, TokenType.PERCEPT)` and construction of
the SRAI token. -/
def convertRawToken (t : RawToken) : SentienceToken :=
  { token_type := (type_mapping.lookup t.type).getD TokenType.PERCEPT
    ast := t.fields
    token_id := t.id }

/-- The `edge_type_mapping` dict of `_convert_to_srai_edges`. -/
def edge_type_mapping : List (String × EdgeType) :=
  [("ABOUT", EdgeType.ABOUT_SELF),
   ("CAUSES", EdgeType.CAUSES),
   ("SUPPORTS", EdgeType.SUPPORTS),
   ("CONTRADICTS", EdgeType.CONTRADICTS),
   ("DERIVED_FROM", EdgeType.STRUCTURAL),
   ("TEMPORAL", EdgeType.TEMPORAL),
   ("SEMANTIC", EdgeType.SEMANTIC),
   ("STRUCTURAL", EdgeType.STRUCTURAL)]

/-- The per-edge body of the `_convert_to_srai_edges` loop:
`edge_type_mapping.get(py_edge["edge_type"], EdgeType.SEMANTIC)` and
construction of the SRAI edge. -/
def convertRawEdge (e : RawEdge) : Edge :=
  { source_id := e.source_id
    target_id := e.target_id
    edge_type := (edge_type_mapping.lookup e.edge_type).getD EdgeType.SEMANTIC
    weight := e.weight }

/-- Overwriting insertion into the runtime token cache
(`self.token_cache[py_token["id"]] = srai_token`). -/
def cacheInsert (cache : List (String × SentienceToken)) (id : String)
    (tok : SentienceToken) : List (String × SentienceToken) :=
  (id, tok) :: cache.filter (fun p => p.1 ≠ id)

/-- `_convert_to_srai_tokens`: converts each raw token, recording each
converted token in the cache; returns the converted list and the updated
cache (the cache is the only state the loop mutates). -/
def convert_to_srai_tokens (cache : List (String × SentienceToken)) :
    List RawToken → List SentienceToken × List (String × SentienceToken)
  | [] => ([], cache)
  | t :: ts =>
    let srai_token := convertRawToken t
    let rest := convert_to_srai_tokens (cacheInsert cache t.id srai_token) ts
    (srai_token :: rest.1, rest.2)

/-- `_convert_to_srai_edges`. -/
def convert_to_srai_edges (es : List RawEdge) : List Edge :=
  es.map convertRawEdge

/-! ### Embedder (`_generate_token_embedding`)

`hashFn` models `int(hashlib.sha256(s.encode()).hexdigest()[:8], 16)`
(a pure function of the string) and `sinQ n` models `np.sin(n) * 0.1`
(a pure function of its integer argument). -/

/-- Sorted-insert of a key/value pair by key. -/
def insertByKey (p : String × String) :
    List (String × String) → List (String × String)
  | [] => [p]
  | q :: qs => if p.1 ≤ q.1 then p :: q :: qs else q :: insertByKey p qs

/-- Insertion sort of the fields by key: `json.dumps(..., sort_keys=True)`
serializes dict entries in sorted key order. -/
def sortByKey : List (String × String) → List (String × String)
  | [] => []
  | p :: ps => insertByKey p (sortByKey ps)

/-- `json.dumps(token.ast, sort_keys=True)` for a string-to-string mapping:
entries in sorted key order, rendered as a JSON object. -/
def canonicalJson (fs : List (String × String)) : String :=
  let entries :=
    (sortByKey fs).map (fun p => "\"" ++ p.1 ++ "\": \"" ++ p.2 ++ "\"")
  "\x7b" ++ String.intercalate ", " entries ++ "\x7d"

/-- `_generate_token_embedding`: hash the string
`f"{token.token_type.value}:{json.dumps(token.ast, sort_keys=True)}"` and
expand it into a 256-entry vector, entry `i` being
`np.sin(hash_val * (i + 1)) * 0.1`. -/
def generate_token_embedding (hashFn : String → ℕ) (sinQ : ℕ → ℚ)
    (token : SentienceToken) : List ℚ :=
  let token_str := token.token_type.value ++ ":" ++ canonicalJson token.ast
  let hash_val := hashFn token_str
  (List.range 256).map (fun i => sinQ (hash_val * (i + 1)))

/-! ### Gate (`_apply_superego_gating`) -/

/-- The quality threshold hard-coded in `_apply_superego_gating`
(`metrics.quality >= 0.6`). -/
def QUALITY_THRESHOLD : ℚ := 0.6

/-- `_apply_superego_gating` with the quality threshold abstracted (the
source uses the literal `QUALITY_THRESHOLD = 0.6`): a token is appended to
`approved_tokens` when `metrics.quality >= threshold`; an edge is appended
to `approved_edges` when both its endpoints are in the approved-token id
set. -/
def apply_superego_gating_at (threshold : ℚ) (tokens : List SentienceToken)
    (edges : List Edge) (metrics : ReflectionMetrics) :
    List SentienceToken × List Edge :=
  let approved_tokens := tokens.filter (fun _ => decide (threshold ≤ metrics.quality))
  let approved_token_ids := approved_tokens.map (fun t => t.token_id)
  let approved_edges := edges.filter
    (fun e => approved_token_ids.contains e.source_id
      && approved_token_ids.contains e.target_id)
  (approved_tokens, approved_edges)

/-- `_apply_superego_gating` as written, at the hard-coded threshold. -/
def apply_superego_gating (tokens : List SentienceToken) (edges : List Edge)
    (metrics : ReflectionMetrics) : List SentienceToken × List Edge :=
  apply_superego_gating_at QUALITY_THRESHOLD tokens edges metrics

/-! ### External collaborators

The DSL executor (`self.sentience_core.process_step`), the Cortex store
(`get_stm_window`, `commit_token`, `add_relation`) and the RefNet adapter
(`evaluate_stm_window`) are external to the module.  They are modelled as
a record of functions over an abstract store state `σ` and an abstract
STM-window type `ω`; fallible calls return `Except String` (a Python
exception becomes `Except.error`). -/

structure Collab (σ ω : Type) where
  process_step : String → Except String PyResult
  get_stm_window : σ → ω
  evaluate_stm_window : ω → List (List ℚ) → Except String ReflectionMetrics
  commit_token : σ → SentienceToken → List ℚ → Except String (String × σ)
  add_relation : σ → Edge → σ

/-- The external calls `_evaluate_with_refnet` can make, recorded in a trace. -/
inductive ExtCall where
  | getStmWindow
  | evaluateStmWindow
deriving DecidableEq, Repr

/-- `_evaluate_with_refnet`: on an empty token list, return the fixed
neutral metrics without touching any collaborator; otherwise fetch the STM
window from the Cortex, derive one embedding per token, and delegate to
`refnet_adapter.evaluate_stm_window`.  The second component is the trace
of external calls the function makes. -/
def evaluate_with_refnet {σ ω : Type} (hashFn : String → ℕ) (sinQ : ℕ → ℚ)
    (C : Collab σ ω) (cortex : σ) (tokens : List SentienceToken) :
    Except String ReflectionMetrics × List ExtCall :=
  if tokens.isEmpty then
    (Except.ok { valence := 0.5, smd := 0.3, quality := 0.7, next_action := "consolidate" }, [])
  else
    let stm_window := C.get_stm_window cortex
    let embeddings := tokens.map (generate_token_embedding hashFn sinQ)
    (C.evaluate_stm_window stm_window embeddings,
     [ExtCall.getStmWindow, ExtCall.evaluateStmWindow])

/-- The token loop of `_commit_to_cortex`: for each token derive its
embedding and call `cortex.commit_token`, accumulating the returned ids.
The source wraps no try/except around `commit_token`: a raised exception
propagates, so the loop is plain sequencing in `Except`. -/
def commitTokens {σ ω : Type} (hashFn : String → ℕ) (sinQ : ℕ → ℚ)
    (C : Collab σ ω) : σ → List SentienceToken → Except String (List String × σ)
  | st, [] => Except.ok ([], st)
  | st, token :: rest =>
    match C.commit_token st token (generate_token_embedding hashFn sinQ token) with
    | Except.error e => Except.error e
    | Except.ok r =>
      match commitTokens hashFn sinQ C r.2 rest with
      | Except.error e => Except.error e
      | Except.ok rs => Except.ok (r.1 :: rs.1, rs.2)

/-- `_commit_to_cortex`: commit every approved token, then add every
approved edge as a relation; returns the committed-id list and the final
store state. -/
def commit_to_cortex {σ ω : Type} (hashFn : String → ℕ) (sinQ : ℕ → ℚ)
    (C : Collab σ ω) (cortex : σ) (tokens : List SentienceToken)
    (edges : List Edge) : Except String (List String × σ) :=
  match commitTokens hashFn sinQ C cortex tokens with
  | Except.error e => Except.error e
  | Except.ok r => Except.ok (r.1, edges.foldl C.add_relation r.2)

/-- `_convert_refnet_metrics`. -/
def convert_refnet_metrics (metrics : ReflectionMetrics) : SentienceRefNetMetrics :=
  { valence := metrics.valence
    smd := metrics.smd
    quality := metrics.quality
    next_action := metrics.next_action
    action_logits := [] }

/-- `np.array(py_result.embedding()) if py_result.embedding() else None`:
both `None` and the empty list are falsy, so an empty embedding also maps
to `None`. -/
def resultEmbedding (e : Option (List ℚ)) : Option (List ℚ) :=
  match e with
  | none => none
  | some l => if l.isEmpty then none else some l

/-- Mutable state of an `SRAISentienceRuntime`: the Cortex store state, the
availability flag for the Rust core (`self.sentience_core` is `None` when
the import failed), and the token conversion cache. -/
structure RuntimeState (σ : Type) where
  cortex : σ
  sentience_core : Bool
  token_cache : List (String × SentienceToken)

/-- `SRAISentienceRuntime.__init__`: store the collaborators and start with
an empty token cache. -/
def runtime_init {σ : Type} (cortex : σ) (avail : Bool) : RuntimeState σ :=
  { cortex := cortex, sentience_core := avail, token_cache := [] }

/-- `process_sentience_dsl`: the six pipeline steps — execute the DSL,
convert tokens and edges, evaluate with RefNet, gate, commit, and assemble
the result.  A raised exception anywhere aborts the run with
`Except.error`; the runtime state is returned only on success (in the
Python original, state mutated before the raise is the token cache only —
see `convert_to_srai_tokens` — and the Cortex is mutated only in step 5). -/
def process_sentience_dsl {σ ω : Type} (hashFn : String → ℕ) (sinQ : ℕ → ℚ)
    (C : Collab σ ω) (rs : RuntimeState σ) (dsl_code : String) :
    Except String (SentienceExecutionResult × RuntimeState σ) :=
  if rs.sentience_core = false then Except.error "Sentience Core not available"
  else
    match C.process_step dsl_code with
    | Except.error e => Except.error e
    | Except.ok py_result =>
      let tokConv := convert_to_srai_tokens rs.token_cache py_result.tokens
      let srai_tokens := tokConv.1
      let srai_edges := convert_to_srai_edges py_result.edges
      match (evaluate_with_refnet hashFn sinQ C rs.cortex srai_tokens).1 with
      | Except.error e => Except.error e
      | Except.ok refnet_metrics =>
        let gated := apply_superego_gating srai_tokens srai_edges refnet_metrics
        match commit_to_cortex hashFn sinQ C rs.cortex gated.1 gated.2 with
        | Except.error e => Except.error e
        | Except.ok committed =>
          Except.ok
            ({ token_id := py_result.token_id
               embedding := resultEmbedding py_result.embedding
               metrics := some (convert_refnet_metrics refnet_metrics)
               tokens := py_result.tokens
               edges := py_result.edges
               srai_tokens := gated.1
               srai_edges := gated.2 },
             { cortex := committed.2
               sentience_core := rs.sentience_core
               token_cache := tokConv.2 })

/-! ### SentienceAgent -/

/-- State of a `SentienceAgent`: its runtime and the step counter. -/
structure AgentState (σ : Type) where
  runtime : RuntimeState σ
  step_count : ℕ

/-- `SentienceAgent.__init__`: fresh runtime, `step_count = 0`. -/
def agent_init {σ : Type} (cortex : σ) (avail : Bool) : AgentState σ :=
  { runtime := runtime_init cortex avail, step_count := 0 }

/-- `SentienceAgent.think`: increment `self.step_count`, then run the
pipeline.  The increment happens before the pipeline runs, so it persists
even when `process_sentience_dsl` raises (the exception propagates to the
caller while the mutated field remains on the object). -/
def think {σ ω : Type} (hashFn : String → ℕ) (sinQ : ℕ → ℚ) (C : Collab σ ω)
    (ag : AgentState σ) (dsl_code : String) :
    Except String SentienceExecutionResult × AgentState σ :=
  let ag1 : AgentState σ := { ag with step_count := ag.step_count + 1 }
  match process_sentience_dsl hashFn sinQ C ag1.runtime dsl_code with
  | Except.ok r => (Except.ok r.1, { ag1 with runtime := r.2 })
  | Except.error e => (Except.error e, ag1)

/-- Iterated `think`: run one thinking step per DSL string, threading the
agent state. -/
def thinkN {σ ω : Type} (hashFn : String → ℕ) (sinQ : ℕ → ℚ) (C : Collab σ ω)
    (ag : AgentState σ) : List String → AgentState σ
  | [] => ag
  | d :: ds => thinkN hashFn sinQ C (think hashFn sinQ C ag d).2 ds

/-! ## Theorems -/

/-- C1: a token is in `approved_tokens` iff it is in the input batch and
`metrics.quality >= QUALITY_THRESHOLD`; consequently the gate is
all-or-nothing — the accepted list is the whole batch or empty, so all
tokens of one step share one accept/reject outcome. -/
theorem gate_accepts_all_iff_quality (tokens : List SentienceToken)
    (edges : List Edge) (metrics : ReflectionMetrics) :
    (∀ t : SentienceToken,
      t ∈ (apply_superego_gating tokens edges metrics).1 ↔
        (t ∈ tokens ∧ QUALITY_THRESHOLD ≤ metrics.quality)) ∧
    ((apply_superego_gating tokens edges metrics).1 = tokens ∨
      (apply_superego_gating tokens edges metrics).1 = []) := by
  unfold apply_superego_gating apply_superego_gating_at
  by_cases h : QUALITY_THRESHOLD ≤ metrics.quality
  · simp [h]
  · simp [h]

/-- Witness for C1: with quality `0.9 ≥ 0.6` the concrete token is
accepted. -/
theorem gate_accepts_all_iff_quality_witness :
    (⟨TokenType.PERCEPT, [], "a"⟩ : SentienceToken) ∈
      (apply_superego_gating [⟨TokenType.PERCEPT, [], "a"⟩] []
        ⟨0, 0, 0.9, "x"⟩).1 :=
  ((gate_accepts_all_iff_quality [⟨TokenType.PERCEPT, [], "a"⟩] []
      ⟨0, 0, 0.9, "x"⟩).1 ⟨TokenType.PERCEPT, [], "a"⟩).mpr
    ⟨by simp, by norm_num [QUALITY_THRESHOLD]⟩

/-- C2: an edge is in `approved_edges` iff it is an input edge and both its
`source_id` and `target_id` are ids of accepted tokens; in particular an
edge whose endpoint refers to a rejected token or to an id not in the
batch is absent.  The gate is a total function, so no error is raised for
such an edge. -/
theorem gate_edge_consistency (tokens : List SentienceToken)
    (edges : List Edge) (metrics : ReflectionMetrics) (e : Edge) :
    e ∈ (apply_superego_gating tokens edges metrics).2 ↔
      (e ∈ edges ∧
        e.source_id ∈
          (apply_superego_gating tokens edges metrics).1.map SentienceToken.token_id ∧
        e.target_id ∈
          (apply_superego_gating tokens edges metrics).1.map SentienceToken.token_id) := by
  unfold apply_superego_gating apply_superego_gating_at
  simp [List.mem_filter, and_assoc]

/-- Witness for C2: an edge whose target id `"b"` is not in the batch is
dropped even though quality passes the gate. -/
theorem gate_edge_consistency_witness :
    (⟨"a", "b", EdgeType.SEMANTIC, 1⟩ : Edge) ∉
      (apply_superego_gating [⟨TokenType.PERCEPT, [], "a"⟩]
        [⟨"a", "b", EdgeType.SEMANTIC, 1⟩] ⟨0, 0, 0.9, "x"⟩).2 :=
  fun h =>
    absurd
      ((gate_edge_consistency [⟨TokenType.PERCEPT, [], "a"⟩]
          [⟨"a", "b", EdgeType.SEMANTIC, 1⟩] ⟨0, 0, 0.9, "x"⟩
          ⟨"a", "b", EdgeType.SEMANTIC, 1⟩).mp h).2.2
      (by norm_num [apply_superego_gating, apply_superego_gating_at, QUALITY_THRESHOLD]
          ; decide)

/-- C8: gate monotonicity — for a fixed batch and fixed metrics, the
accepted-token list under a higher threshold is a subset of the one under
a lower threshold. -/
theorem gate_monotone_threshold (t1 t2 : ℚ) (tokens : List SentienceToken)
    (edges : List Edge) (metrics : ReflectionMetrics) (h : t1 ≤ t2) :
    (apply_superego_gating_at t2 tokens edges metrics).1 ⊆
      (apply_superego_gating_at t1 tokens edges metrics).1 := by
  unfold apply_superego_gating_at
  by_cases h2 : t2 ≤ metrics.quality
  · have h1 : t1 ≤ metrics.quality := le_trans h h2
    simp [h1, h2, List.Subset.refl]
  · simp [h2, List.nil_subset]

/-- Witness for C8: raising the threshold from the default `0.6` to `0.8`
does not add tokens to the accepted set. -/
theorem gate_monotone_threshold_witness :
    (0.6 : ℚ) ≤ 0.8 ∧
      (apply_superego_gating_at 0.8 [⟨TokenType.PERCEPT, [], "a"⟩] []
          ⟨0, 0, 0.7, "x"⟩).1 ⊆
        (apply_superego_gating_at 0.6 [⟨TokenType.PERCEPT, [], "a"⟩] []
          ⟨0, 0, 0.7, "x"⟩).1 :=
  ⟨by norm_num,
   gate_monotone_threshold 0.6 0.8 [⟨TokenType.PERCEPT, [], "a"⟩] []
     ⟨0, 0, 0.7, "x"⟩ (by norm_num)⟩

/-- C4: on the empty token list, `_evaluate_with_refnet` returns exactly
the neutral metrics `valence=0.5, smd=0.3, quality=0.7,
next_action="consolidate"` with an empty external-call trace: neither
`cortex.get_stm_window` nor `refnet_adapter.evaluate_stm_window` is
invoked. -/
theorem evaluate_with_refnet_empty_neutral {σ ω : Type} (hashFn : String → ℕ)
    (sinQ : ℕ → ℚ) (C : Collab σ ω) (cortex : σ) :
    evaluate_with_refnet hashFn sinQ C cortex [] =
      (Except.ok { valence := 0.5, smd := 0.3, quality := 0.7,
                   next_action := "consolidate" }, []) := rfl

/-- C3: the embedding is a function of `token_type` and `ast` alone — two
tokens agreeing on those get identical vectors for every choice of the
hash and sine primitives — and the vector always has exactly 256
entries. -/
theorem embedding_deterministic_dim256 (hashFn : String → ℕ) (sinQ : ℕ → ℚ)
    (t1 t2 : SentienceToken) (hk : t1.token_type = t2.token_type)
    (ha : t1.ast = t2.ast) :
    generate_token_embedding hashFn sinQ t1 =
        generate_token_embedding hashFn sinQ t2 ∧
      (generate_token_embedding hashFn sinQ t1).length = 256 := by
  constructor
  · unfold generate_token_embedding
    rw [hk, ha]
  · unfold generate_token_embedding
    simp

/-- Witness for C3: two tokens differing only in `token_id` embed to the
same 256-entry vector (at concrete hash/sine stand-ins). -/
theorem embedding_deterministic_dim256_witness :
    generate_token_embedding (fun s => s.length) (fun n => (n : ℚ))
        ⟨TokenType.PERCEPT, [("k", "v")], "id1"⟩ =
      generate_token_embedding (fun s => s.length) (fun n => (n : ℚ))
        ⟨TokenType.PERCEPT, [("k", "v")], "id2"⟩ ∧
    (generate_token_embedding (fun s => s.length) (fun n => (n : ℚ))
      ⟨TokenType.PERCEPT, [("k", "v")], "id1"⟩).length = 256 :=
  embedding_deterministic_dim256 (fun s => s.length) (fun n => (n : ℚ))
    ⟨TokenType.PERCEPT, [("k", "v")], "id1"⟩
    ⟨TokenType.PERCEPT, [("k", "v")], "id2"⟩ rfl rfl

/-- C5: canonical conversion is total and defaults unknown kinds — a raw
token whose kind string is not a key of `type_mapping` converts with kind
`PERCEPT`, a raw edge whose type string is not a key of
`edge_type_mapping` converts with kind `SEMANTIC`, and the converters
produce one output per input (never failing the batch). -/
theorem conversion_total_with_defaults :
    (∀ rt : RawToken, type_mapping.lookup rt.type = none →
      (convertRawToken rt).token_type = TokenType.PERCEPT) ∧
    (∀ re : RawEdge, edge_type_mapping.lookup re.edge_type = none →
      (convertRawEdge re).edge_type = EdgeType.SEMANTIC) ∧
    (∀ (cache : List (String × SentienceToken)) (ts : List RawToken),
      (convert_to_srai_tokens cache ts).1.length = ts.length) ∧
    (∀ es : List RawEdge, (convert_to_srai_edges es).length = es.length) := by
  refine ⟨fun rt h => ?_, fun re h => ?_, fun cache ts => ?_, fun es => ?_⟩
  · unfold convertRawToken
    rw [h]
    rfl
  · unfold convertRawEdge
    rw [h]
    rfl
  · induction ts generalizing cache with
    | nil => rfl
    | cons t ts ih =>
      unfold convert_to_srai_tokens
      simp [ih]
  · unfold convert_to_srai_edges
    simp

/-- Witness for C5: a raw token of unknown kind `"garbage"` becomes a
`PERCEPT`, a raw edge of unknown type `"garbage"` becomes `SEMANTIC`. -/
theorem conversion_total_with_defaults_witness :
    (convertRawToken ⟨"garbage", [], "t1"⟩).token_type = TokenType.PERCEPT ∧
    (convertRawEdge ⟨"garbage", "a", "b", 1⟩).edge_type = EdgeType.SEMANTIC :=
  ⟨conversion_total_with_defaults.1 ⟨"garbage", [], "t1"⟩ (by decide),
   conversion_total_with_defaults.2.1 ⟨"garbage", "a", "b", 1⟩ (by decide)⟩

/-- One `think` call always advances `step_count` by exactly one, whether
the pipeline succeeds or raises: the increment precedes the pipeline
run. -/
theorem think_step_count {σ ω : Type} (hashFn : String → ℕ) (sinQ : ℕ → ℚ)
    (C : Collab σ ω) (ag : AgentState σ) (dsl_code : String) :
    (think hashFn sinQ C ag dsl_code).2.step_count = ag.step_count + 1 := by
  simp only [think]
  split <;> rfl

/-- C10: after a sequence of `think` calls, `step_count` has grown by
exactly the number of calls — every call counts, including those whose
pipeline raises (the counter is incremented before the pipeline runs).
Starting from `SentienceAgent.__init__` (`step_count = 0`), after `n`
calls the counter is exactly `n`. -/
theorem think_counts_every_call {σ ω : Type} (hashFn : String → ℕ)
    (sinQ : ℕ → ℚ) (C : Collab σ ω) (ag : AgentState σ)
    (dsls : List String) :
    (thinkN hashFn sinQ C ag dsls).step_count = ag.step_count + dsls.length := by
  induction dsls generalizing ag with
  | nil => rfl
  | cons d ds ih =>
    unfold thinkN
    rw [ih, think_step_count]
    simp
    ring

/-- The converted-token list returned by `_convert_to_srai_tokens` does not
depend on the cache contents the loop starts from (the cache is written,
never read). -/
theorem convert_tokens_fst_cache_independent (ts : List RawToken)
    (c1 c2 : List (String × SentienceToken)) :
    (convert_to_srai_tokens c1 ts).1 = (convert_to_srai_tokens c2 ts).1 := by
  induction ts generalizing c1 c2 with
  | nil => rfl
  | cons t ts ih =>
    unfold convert_to_srai_tokens
    simp only [List.cons.injEq, true_and]
    exact ih (cacheInsert c1 t.id (convertRawToken t))
      (cacheInsert c2 t.id (convertRawToken t))

/-- C9: the `SentienceExecutionResult` of `process_sentience_dsl` is the
same whether the runtime starts with an empty or an arbitrarily populated
`token_cache`, for any collaborators: the cache is written during
conversion but never read on the result path. -/
theorem result_cache_independent {σ ω : Type} (hashFn : String → ℕ)
    (sinQ : ℕ → ℚ) (C : Collab σ ω) (cortex : σ) (avail : Bool)
    (cache1 cache2 : List (String × SentienceToken)) (dsl_code : String) :
    Except.map Prod.fst
        (process_sentience_dsl hashFn sinQ C
          { cortex := cortex, sentience_core := avail, token_cache := cache1 }
          dsl_code) =
      Except.map Prod.fst
        (process_sentience_dsl hashFn sinQ C
          { cortex := cortex, sentience_core := avail, token_cache := cache2 }
          dsl_code) := by
  have hconv : ∀ ts : List RawToken,
      (convert_to_srai_tokens cache1 ts).1 = (convert_to_srai_tokens cache2 ts).1 :=
    fun ts => convert_tokens_fst_cache_independent ts cache1 cache2
  cases avail with
  | false => rfl
  | true =>
    simp only [process_sentience_dsl]
    cases hp : C.process_step dsl_code with
    | error e => rfl
    | ok py =>
      simp only [hconv]
      cases he : (evaluate_with_refnet hashFn sinQ C cortex
          (convert_to_srai_tokens cache2 py.tokens).1).1 with
      | error e => simp only [he]
      | ok m =>
        simp only [he]
        cases hc : commit_to_cortex hashFn sinQ C cortex
            (apply_superego_gating (convert_to_srai_tokens cache2 py.tokens).1
              (convert_to_srai_edges py.edges) m).1
            (apply_superego_gating (convert_to_srai_tokens cache2 py.tokens).1
              (convert_to_srai_edges py.edges) m).2 with
        | error e => simp only [hc]
        | ok r =>
          simp only [hc, Except.map]
          rfl

/-- C7: when the external evaluator raises in step 3, the whole run aborts
with that failure: `process_sentience_dsl` returns exactly the evaluator's
error.  No `PipelineResult` (even partial) is produced, and since the
store state travels only inside the success value, the caller's store is
untouched — `commit_to_cortex` is never reached. -/
theorem evaluator_failure_aborts_run {σ ω : Type} (hashFn : String → ℕ)
    (sinQ : ℕ → ℚ) (C : Collab σ ω) (rs : RuntimeState σ) (dsl_code : String)
    (py : PyResult) (msg : String)
    (havail : rs.sentience_core = true)
    (hstep : C.process_step dsl_code = Except.ok py)
    (hne : (convert_to_srai_tokens rs.token_cache py.tokens).1.isEmpty = false)
    (heval : C.evaluate_stm_window (C.get_stm_window rs.cortex)
        ((convert_to_srai_tokens rs.token_cache py.tokens).1.map
          (generate_token_embedding hashFn sinQ)) = Except.error msg) :
    process_sentience_dsl hashFn sinQ C rs dsl_code = Except.error msg := by
  unfold process_sentience_dsl
  rw [havail]
  simp only [evaluate_with_refnet, hstep, hne, heval, Bool.true_eq_false,
    Bool.false_eq_true, if_false]

/-- Collaborators for the C7 witness: the DSL executor yields one raw
token, the evaluator always raises `"boom"`, the store counts commits. -/
def failEvalCollab : Collab ℕ Unit :=
  { process_step := fun _ =>
      Except.ok { token_id := some "t", embedding := none,
                  tokens := [{ type := "Percept", fields := [], id := "a" }],
                  edges := [] }
    get_stm_window := fun _ => ()
    evaluate_stm_window := fun _ _ => Except.error "boom"
    commit_token := fun st t _ => Except.ok (t.token_id, st + 1)
    add_relation := fun st _ => st }

/-- Witness for C7: at the concrete collaborators, the run surfaces exactly
the evaluator's error. -/
theorem evaluator_failure_aborts_run_witness :
    process_sentience_dsl (fun s => s.length) (fun n => (n : ℚ)) failEvalCollab
        { cortex := 0, sentience_core := true, token_cache := [] } "code" =
      Except.error "boom" :=
  evaluator_failure_aborts_run (fun s => s.length) (fun n => (n : ℚ))
    failEvalCollab { cortex := 0, sentience_core := true, token_cache := [] }
    "code" { token_id := some "t", embedding := none,
             tokens := [{ type := "Percept", fields := [], id := "a" }],
             edges := [] }
    "boom" rfl rfl rfl rfl

/-- Collaborators for the C6 analysis: the store records committed ids in
order and its `commit_token` raises exactly on the token with id `"b"`. -/
def commitFailCollab : Collab (List String) Unit :=
  { process_step := fun _ => Except.error "unused"
    get_stm_window := fun _ => ()
    evaluate_stm_window := fun _ _ => Except.error "unused"
    commit_token := fun st t _ =>
      if t.token_id = "b" then Except.error "commit failed"
      else Except.ok (t.token_id, st ++ [t.token_id])
    add_relation := fun st _ => st }

/-- Counterexample to C6 as stated: committing the batch `[a, b, c]`
against a store whose commit fails on `"b"` does not record the failure
and continue — `_commit_to_cortex` wraps no try/except around
`cortex.commit_token`, so the exception propagates: the call returns the
error, `"c"` is never committed, and no committed-id list (in particular
not the claimed `["a", "c"]` with store `["a", "c"]`) is returned. -/
theorem commit_failure_not_partial_counterexample :
    commit_to_cortex (fun s => s.length) (fun n => (n : ℚ)) commitFailCollab []
        [⟨TokenType.PERCEPT, [], "a"⟩, ⟨TokenType.PERCEPT, [], "b"⟩,
          ⟨TokenType.PERCEPT, [], "c"⟩] [] = Except.error "commit failed" ∧
      commit_to_cortex (fun s => s.length) (fun n => (n : ℚ)) commitFailCollab []
          [⟨TokenType.PERCEPT, [], "a"⟩, ⟨TokenType.PERCEPT, [], "b"⟩,
            ⟨TokenType.PERCEPT, [], "c"⟩] [] ≠
        Except.ok (["a", "c"], ["a", "c"]) := by
  have h1 : commit_to_cortex (fun s => s.length) (fun n => (n : ℚ))
      commitFailCollab []
      [⟨TokenType.PERCEPT, [], "a"⟩, ⟨TokenType.PERCEPT, [], "b"⟩,
        ⟨TokenType.PERCEPT, [], "c"⟩] [] = Except.error "commit failed" := rfl
  refine ⟨h1, ?_⟩
  rw [h1]
  intro h
  exact Except.noConfusion h

/-- If commit succeeds on a prefix and then raises on token `t`, the whole
token loop of `_commit_to_cortex` returns that error — later tokens are
never attempted. -/
theorem commitTokens_fail_propagates {σ ω : Type} (hashFn : String → ℕ)
    (sinQ : ℕ → ℚ) (C : Collab σ ω) (pre : List SentienceToken) (st : σ)
    (t : SentienceToken) (post : List SentienceToken) (ids : List String)
    (st1 : σ) (e : String)
    (h1 : commitTokens hashFn sinQ C st pre = Except.ok (ids, st1))
    (h2 : C.commit_token st1 t (generate_token_embedding hashFn sinQ t) =
      Except.error e) :
    commitTokens hashFn sinQ C st (pre ++ t :: post) = Except.error e := by
  induction pre generalizing st ids with
  | nil =>
    simp only [commitTokens, Except.ok.injEq, Prod.mk.injEq] at h1
    obtain ⟨h3, h4⟩ := h1
    subst h4
    simp only [List.nil_append, commitTokens, h2]
  | cons p pre ih =>
    simp only [commitTokens] at h1
    cases hcp : C.commit_token st p (generate_token_embedding hashFn sinQ p) with
    | error e2 =>
      rw [hcp] at h1
      simp at h1
    | ok r =>
      rw [hcp] at h1
      simp only [] at h1
      cases hrs : commitTokens hashFn sinQ C r.2 pre with
      | error e2 =>
        rw [hrs] at h1
        simp at h1
      | ok rs =>
        rw [hrs] at h1
        simp only [Except.ok.injEq, Prod.mk.injEq] at h1
        obtain ⟨h3, h4⟩ := h1
        have hpre : commitTokens hashFn sinQ C r.2 pre = Except.ok (rs.1, st1) := by
          rw [hrs, ← h4]
        simp only [List.cons_append, commitTokens, hcp, List.append_eq,
          ih r.2 rs.1 hpre]

/-- C6 amended: a commit failure on one accepted token is not caught by
`_commit_to_cortex`; the exception propagates and aborts the commits of
the remaining accepted tokens, and no committed-id list is returned for
the batch (tokens before the failing one are already in the store). -/
theorem commit_failure_aborts_batch {σ ω : Type} (hashFn : String → ℕ)
    (sinQ : ℕ → ℚ) (C : Collab σ ω) (pre : List SentienceToken) (st : σ)
    (t : SentienceToken) (post : List SentienceToken) (edges : List Edge)
    (ids : List String) (st1 : σ) (e : String)
    (h1 : commitTokens hashFn sinQ C st pre = Except.ok (ids, st1))
    (h2 : C.commit_token st1 t (generate_token_embedding hashFn sinQ t) =
      Except.error e) :
    commit_to_cortex hashFn sinQ C st (pre ++ t :: post) edges =
      Except.error e := by
  unfold commit_to_cortex
  rw [commitTokens_fail_propagates hashFn sinQ C pre st t post ids st1 e h1 h2]

/-- Witness for the amended C6: commit of `[x, b, y]` fails on `"b"` after
`"x"` was committed, and the whole call returns the store's error. -/
theorem commit_failure_aborts_batch_witness :
    commit_to_cortex (fun s => s.length) (fun n => (n : ℚ)) commitFailCollab []
        [⟨TokenType.PERCEPT, [], "x"⟩, ⟨TokenType.PERCEPT, [], "b"⟩,
          ⟨TokenType.PERCEPT, [], "y"⟩] [] = Except.error "commit failed" :=
  commit_failure_aborts_batch (fun s => s.length) (fun n => (n : ℚ))
    commitFailCollab [⟨TokenType.PERCEPT, [], "x"⟩] []
    ⟨TokenType.PERCEPT, [], "b"⟩ [⟨TokenType.PERCEPT, [], "y"⟩] []
    ["x"] ["x"] "commit failed" rfl rfl

end Sentience
